import Mathlib

/-!
Shallow embedding of the covalent documentation notebooks:

* `ChoosingExecutors` — doc/source/how_to/execution/choosing_executors.ipynb
* `PennylaneHybrid`   — doc/source/tutorials/1_QuantumMachineLearning/pennylane_hybrid/source.ipynb
* `S3Transfers`       — doc/source/how_to/coding/file_transfers_to_from_s3.ipynb
* `VoiceClone`        — the unnamed YouTube-summarization / voice-cloning notebook
                         (Streamlit app dispatching a Covalent workflow)

Each notebook is a straight-line script that configures external objects,
decorates functions, dispatches a workflow through the external Covalent API,
retrieves the result keyed by the returned dispatch id, and displays it.  We
model the external API calls as an oracle (the dispatch id the library returns,
and the result object `ct.get_result` yields), embed every function the
notebooks themselves define, and record each script's interaction with the
external library as a trace of events.
-/

namespace Covalent

/-- One observable step of a notebook script: configuring an external object,
decorating a function, calling `ct.dispatch`, calling `ct.get_result` with its
`wait` flag, or displaying a retrieved result. -/
inductive Event where
  | configure (name : String)
  | decorate (name : String)
  | dispatch (id : String)
  | getResult (id : String) (wait : Bool)
  | display (what : String)
deriving DecidableEq, Repr

/-- Phase number of an event in the configure → decorate → dispatch →
retrieve → display pipeline. -/
def phase : Event → Nat
  | Event.configure _ => 0
  | Event.decorate _ => 1
  | Event.dispatch _ => 2
  | Event.getResult _ _ => 3
  | Event.display _ => 4

/-- Boolean check that a list of numbers is weakly increasing. -/
def monoB : List Nat → Bool
  | [] => true
  | [_] => true
  | a :: b :: r => Nat.ble a b && monoB (b :: r)

/-- The phases of a trace occur in pipeline order. -/
def phasesMonotone (t : List Event) : Bool :=
  monoB (t.map phase)

/-- Every `getResult` in the trace is keyed by an id dispatched earlier in the
trace; `seen` accumulates the ids dispatched so far. -/
def retrievalsAfterDispatch : List String → List Event → Bool
  | _, [] => true
  | seen, Event.dispatch id :: r => retrievalsAfterDispatch (id :: seen) r
  | seen, Event.getResult id _ :: r => seen.contains id && retrievalsAfterDispatch seen r
  | seen, _ :: r => retrievalsAfterDispatch seen r

/-- Every result-retrieval call in the trace passes `wait := true`. -/
def allWaitsBlocking (t : List Event) : Bool :=
  t.all fun e =>
    match e with
    | Event.getResult _ w => w
    | _ => true

/-- The ids passed to the result-retrieval calls of a trace, in order. -/
def retrievalKeys (t : List Event) : List String :=
  t.filterMap fun e =>
    match e with
    | Event.getResult id _ => some id
    | _ => none

/-- The ids returned by the dispatch calls of a trace, in order. -/
def dispatchedIds (t : List Event) : List String :=
  t.filterMap fun e =>
    match e with
    | Event.dispatch id => some id
    | _ => none

end Covalent

namespace ChoosingExecutors

/-- `identity(x)`: returns its argument (electron with `executor=executor1`). -/
def identity (x : Int) : Int := x

/-- `square(x)`: returns `x * x` (electron with `executor="local"`). -/
def square (x : Int) : Int := x * x

/-- `workflow(a)`: the lattice `val_1 = identity(x=a); return square(x=val_1)`. -/
def workflow (a : Int) : Int := square (identity a)

/-- Names the notebook binds by its import statements (`import covalent as ct`). -/
def importedNames : List String := ["ct"]

/-- External top-level names the notebook's code refers to. -/
def usedNames : List String := ["ct"]

/-- The script as a trace: initialize `executor1`, decorate `identity`,
`square` and `workflow`, dispatch with `a=2`, retrieve by the returned id with
`wait=True`, print the output. -/
def notebookTrace (dispatch_id : String) : List Covalent.Event :=
  [Covalent.Event.configure "executor1",
   Covalent.Event.decorate "identity",
   Covalent.Event.decorate "square",
   Covalent.Event.decorate "workflow",
   Covalent.Event.dispatch dispatch_id,
   Covalent.Event.getResult dispatch_id true,
   Covalent.Event.display "output"]

end ChoosingExecutors

namespace PennylaneHybrid

/-- `squared_difference(x, y)`: `np.abs(x - y) ** 2`, embedded on integers. -/
def squared_difference (x y : Int) : Int := |x - y| ^ 2

/-- One iteration of the `for i in range(steps)` body of `training`:
`params = opt.step(cost, params); training_steps.append(i);
cost_steps.append(cost(params))`.  The accumulator carries the current
parameters and the two lists. -/
def trainStep {P Q : Type} (optStep : P → P) (costF : P → Q)
    (acc : P × List Nat × List Q) (i : Nat) : P × List Nat × List Q :=
  let params := optStep acc.1
  (params, acc.2.1 ++ [i], acc.2.2 ++ [costF params])

/-- `training(opt, init_params, cost, steps)`: starts from `init_params` and
two empty lists, runs the loop body for `i in range(steps)`, and returns
`(params, training_steps, cost_steps)`.  `optStep` models
`params ↦ opt.step(cost, params)` and `costF` models `cost`. -/
def training {P Q : Type} (optStep : P → P) (costF : P → Q)
    (init_params : P) (steps : Nat) : P × List Nat × List Q :=
  (List.range steps).foldl (trainStep optStep costF) (init_params, [], [])

/-- Names the notebook binds by its import statements
(`pennylane as qml`, `pennylane.numpy as np`, `covalent as ct`,
`matplotlib.pyplot as plt`). -/
def importedNames : List String := ["qml", "np", "ct", "plt"]

/-- External top-level names the notebook's code refers to. -/
def usedNames : List String := ["qml", "np", "ct", "plt"]

/-- The script as a trace: initialize the two devices, decorate the electrons
and the lattice, dispatch `workflow([0.01, 0.01], 50)`, retrieve by the
returned id with `wait=True`, plot the costs. -/
def notebookTrace (dispatch_id : String) : List Covalent.Event :=
  [Covalent.Event.configure "dev_fock",
   Covalent.Event.configure "dev_qubit",
   Covalent.Event.decorate "photon_redirection",
   Covalent.Event.decorate "qubit_rotation",
   Covalent.Event.decorate "squared_difference",
   Covalent.Event.decorate "cost",
   Covalent.Event.decorate "get_optimizer",
   Covalent.Event.decorate "get_init_params",
   Covalent.Event.decorate "training",
   Covalent.Event.decorate "workflow",
   Covalent.Event.dispatch dispatch_id,
   Covalent.Event.getResult dispatch_id true,
   Covalent.Event.display "cost plot"]

end PennylaneHybrid

namespace S3Transfers

/-- Transfer order of a `FileTransfer` (`ct.fs.Order`). -/
inductive Order where
  | BEFORE
  | AFTER
deriving DecidableEq, Repr

/-- A `ct.fs.FileTransfer` object: source path, destination path, order. -/
structure FileTransfer where
  source_path : String
  dest_path : String
  order : Order
deriving DecidableEq, Repr

/-- `unprocessed_filename = "unprocessed_file.png"`. -/
def unprocessed_filename : String := "unprocessed_file.png"

/-- `processed_filename = "processed_file.png"`. -/
def processed_filename : String := "processed_file.png"

/-- `s3_source_path = f"s3://covalent-howto-tmp/remote_\x7bunprocessed_filename\x7d"`. -/
def s3_source_path : String := "s3://covalent-howto-tmp/remote_" ++ unprocessed_filename

/-- `s3_dest_path = f"s3://covalent-howto-tmp/remote_\x7bprocessed_filename\x7d"`. -/
def s3_dest_path : String := "s3://covalent-howto-tmp/remote_" ++ processed_filename

/-- `ft_1`: download from S3 before the electron runs (order defaults to
BEFORE); the local destination path is the resolved `unprocessed_filename`,
parameterized here by the working directory. -/
def ft_1 (cwd : String) : FileTransfer :=
  { source_path := s3_source_path,
    dest_path := cwd ++ "/" ++ unprocessed_filename,
    order := Order.BEFORE }

/-- `ft_2`: upload to S3 after the electron runs (`order=ct.fs.Order.AFTER`). -/
def ft_2 (cwd : String) : FileTransfer :=
  { source_path := cwd ++ "/" ++ processed_filename,
    dest_path := s3_dest_path,
    order := Order.AFTER }

/-- Names the notebook binds by its import statements (`covalent as ct`,
`List`, `Tuple`, `Path`, `io`, `color`). -/
def importedNames : List String := ["ct", "List", "Tuple", "Path", "io", "color"]

/-- External top-level names the notebook's code refers to. -/
def usedNames : List String := ["ct", "List", "Tuple", "Path", "io", "color"]

/-- The script as a trace: build the strategy and the two `FileTransfer`
objects, decorate `to_grayscale` and `process_s3_data`, dispatch, retrieve the
result's status by the returned id with `wait=True`, print the status. -/
def notebookTrace (dispatch_id : String) : List Covalent.Event :=
  [Covalent.Event.configure "strategy",
   Covalent.Event.configure "ft_1",
   Covalent.Event.configure "ft_2",
   Covalent.Event.decorate "to_grayscale",
   Covalent.Event.decorate "process_s3_data",
   Covalent.Event.dispatch dispatch_id,
   Covalent.Event.getResult dispatch_id true,
   Covalent.Event.display "status"]

end S3Transfers

namespace VoiceClone

/-- The keyword arguments of the `ct.executor.GCPBatchExecutor(...)` call. -/
structure GCPBatchExecutor where
  container_image_uri : String
  vcpus : Nat
  memory : Nat
  time_limit : Nat
  poll_freq : Nat
  retries : Nat
deriving DecidableEq, Repr

/-- `executor = ct.executor.GCPBatchExecutor(container_image_uri=..., vcpus=4,
memory=8192, time_limit=3000, poll_freq=1, retries=1)`. -/
def executor : GCPBatchExecutor :=
  { container_image_uri := "docker.io/filipbolt/covalent-gcp-0.229.0rc0",
    vcpus := 4,
    memory := 8192,
    time_limit := 3000,
    poll_freq := 1,
    retries := 1 }

/-- The keyword arguments of the `cc.CloudExecutor(...)` call. -/
structure CloudExecutor where
  num_cpus : Nat
  env : String
  memory : Nat
  time_limit : Nat
deriving DecidableEq, Repr

/-- `cc_executor = cc.CloudExecutor(num_cpus=4, env="genai-env", memory=8192,
time_limit=3000)`. -/
def cc_executor : CloudExecutor :=
  { num_cpus := 4, env := "genai-env", memory := 8192, time_limit := 3000 }

/-- The Streamlit session state as far as this script touches it: the three
keys `process_input` writes (`none` models an absent key). -/
structure SessionState where
  transcription : Option String
  summary : Option String
  audio_file_content : Option String
deriving DecidableEq, Repr

/-- Session state with none of the three keys present. -/
def emptySession : SessionState :=
  { transcription := none, summary := none, audio_file_content := none }

/-- The external Covalent API as this script observes it: the dispatch id
`ct.dispatch(workflow)(...)` returns, and the result object
`ct.get_result(id, wait=True)` yields — `some (summary, transcription,
output_file_content)` when the result is truthy and its `.result` triple
unpacks as in the script, `none` when the result is falsy. -/
structure ExternalAPI where
  dispatchId : String
  getResult : String → Option (String × String × String)

/-- A process environment, as a partial map from variable names to values. -/
def Env : Type := String → Option String

/-- Environment-variable assignment `os.environ[k] = v`. -/
def setEnv (env : Env) (k v : String) : Env :=
  fun x => if x = k then some v else env x

/-- The effect of `text_to_speech_voice_clone` on the process environment:
`os.environ["COQUI_TOS_AGREED"] = "1"` (the rest of the task body is external
TTS library work). -/
def text_to_speech_voice_clone_env (env : Env) : Env :=
  setEnv env "COQUI_TOS_AGREED" "1"

/-- `upload_speaker_file()`: when a file was uploaded, play it, write it to
`speaker.wav` and return `(speaker_file, "speaker.wav")`; otherwise return
`(None, None)`.  The uploaded file is modelled by its content. -/
def upload_speaker_file (uploaded : Option String) : Option String × Option String :=
  match uploaded with
  | some f => (some f, some "speaker.wav")
  | none => (none, none)

/-- `process_input(speaker_file, speaker_file_path, youtube_url)`: when both
`speaker_file` and `youtube_url` are truthy, dispatch the workflow, block on
`ct.get_result(dispatch_id, wait=True)`, and on a truthy result write the
three session-state keys and display the results, on a falsy result show an
error message; otherwise do nothing.  Returns the session state after the
call together with the trace of external interactions. -/
def process_input (api : ExternalAPI) (speaker_file : Option String)
    (speaker_file_path : Option String) (youtube_url : String)
    (state : SessionState) : SessionState × List Covalent.Event :=
  if speaker_file.isSome && !(youtube_url == "") then
    let dispatch_id := api.dispatchId
    match api.getResult dispatch_id with
    | some r =>
        ({ transcription := some r.2.1,
           summary := some r.1,
           audio_file_content := some r.2.2 },
         [Covalent.Event.dispatch dispatch_id,
          Covalent.Event.getResult dispatch_id true,
          Covalent.Event.display "results"])
    | none =>
        (state,
         [Covalent.Event.dispatch dispatch_id,
          Covalent.Event.getResult dispatch_id true,
          Covalent.Event.display "error"])
  else
    (state, [])

/-- Names the notebook binds by its import statements (`os`, `streamlit as
st`, `YouTube`, `AudioSegment`, `pipeline`, `TTS`, `covalent_cloud as cc`).
No import statement in the notebook binds `ct`. -/
def importedNames : List String :=
  ["os", "st", "YouTube", "AudioSegment", "pipeline", "TTS", "cc"]

/-- External top-level names the notebook's code refers to; `ct` is used by
the executor cell, the electron decorators, `ct.dispatch` and
`ct.get_result`. -/
def usedNames : List String :=
  ["os", "st", "YouTube", "AudioSegment", "pipeline", "TTS", "cc", "ct"]

/-- The script as a trace: configure the two executors, decorate the six
electrons and the lattice, then run `process_input` (the branch of `main`
that dispatches). -/
def notebookTrace (api : ExternalAPI) (speaker_file : Option String)
    (speaker_file_path : Option String) (youtube_url : String)
    (state : SessionState) : List Covalent.Event :=
  [Covalent.Event.configure "executor",
   Covalent.Event.configure "cc_executor",
   Covalent.Event.decorate "download_video",
   Covalent.Event.decorate "load_audio",
   Covalent.Event.decorate "transcribe_audio",
   Covalent.Event.decorate "summarize_transcription",
   Covalent.Event.decorate "text_to_speech_voice_clone",
   Covalent.Event.decorate "load_wav_file",
   Covalent.Event.decorate "workflow"]
  ++ (process_input api speaker_file speaker_file_path youtube_url state).2

/-- An external API whose retrieved result is truthy, with the concrete
triple `("sum", "trans", "audio")` as `result.result`. -/
def apiOk : ExternalAPI :=
  { dispatchId := "d-1", getResult := fun _ => some ("sum", "trans", "audio") }

/-- An external API whose retrieved result is falsy. -/
def apiFail : ExternalAPI :=
  { dispatchId := "d-2", getResult := fun _ => none }

end VoiceClone

/-!
Helper lemmas, shared by the claim theorems below.
-/

/-- The `training` loop over any index list: the step indices are appended in
order and one cost is recorded per step. -/
theorem trainStep_foldl {P Q : Type} (f : P → P) (c : P → Q) (l : List Nat) :
    ∀ (p : P) (ts : List Nat) (cs : List Q),
      ((l.foldl (PennylaneHybrid.trainStep f c) (p, ts, cs)).2.1 = ts ++ l) ∧
      ((l.foldl (PennylaneHybrid.trainStep f c) (p, ts, cs)).2.2.length
        = cs.length + l.length) := by
  induction l with
  | nil => intro p ts cs; simp
  | cons i r ih =>
      intro p ts cs
      have h := ih (f p) (ts ++ [i]) (cs ++ [c (f p)])
      simp only [List.foldl_cons, PennylaneHybrid.trainStep] at h ⊢
      refine ⟨?_, ?_⟩
      · rw [h.1, List.append_assoc, List.singleton_append]
      · rw [h.2]
        simp only [List.length_append, List.length_cons, List.length_nil]
        omega

/-- The second component of `training` is exactly `range steps`. -/
theorem training_steps_eq_range {P Q : Type} (f : P → P) (c : P → Q)
    (p : P) (n : Nat) :
    (PennylaneHybrid.training f c p n).2.1 = List.range n := by
  have h := (trainStep_foldl f c (List.range n) p [] []).1
  simpa [PennylaneHybrid.training] using h

/-- The third component of `training` has one entry per step. -/
theorem training_costs_length {P Q : Type} (f : P → P) (c : P → Q)
    (p : P) (n : Nat) :
    (PennylaneHybrid.training f c p n).2.2.length = n := by
  have h := (trainStep_foldl f c (List.range n) p [] []).2
  simpa [PennylaneHybrid.training] using h

/-- The action list of `process_input` is one of three concrete shapes:
empty (guard fails), dispatch–retrieve–display (truthy result), or
dispatch–retrieve–error (falsy result). -/
theorem process_input_actions_cases (api : VoiceClone.ExternalAPI)
    (sf sfp : Option String) (url : String) (st0 : VoiceClone.SessionState) :
    (VoiceClone.process_input api sf sfp url st0).2 = [] ∨
    (VoiceClone.process_input api sf sfp url st0).2 =
      [Covalent.Event.dispatch api.dispatchId,
       Covalent.Event.getResult api.dispatchId true,
       Covalent.Event.display "results"] ∨
    (VoiceClone.process_input api sf sfp url st0).2 =
      [Covalent.Event.dispatch api.dispatchId,
       Covalent.Event.getResult api.dispatchId true,
       Covalent.Event.display "error"] := by
  unfold VoiceClone.process_input
  by_cases hg : (sf.isSome && !(url == "")) = true
  · rw [if_pos hg]
    cases h : api.getResult api.dispatchId with
    | some r => right; left; simp [h]
    | none => right; right; simp [h]
  · rw [if_neg hg]; left; rfl

/-- Trace-level properties of `process_input`, by cases on its three paths:
its retrieval keys are exactly its dispatched ids, every retrieval blocks,
every retrieval follows the dispatch of its id, and its phases are in
pipeline order. -/
theorem process_input_trace_props (api : VoiceClone.ExternalAPI)
    (sf sfp : Option String) (url : String) (st0 : VoiceClone.SessionState) :
    Covalent.retrievalKeys (VoiceClone.process_input api sf sfp url st0).2 =
      Covalent.dispatchedIds (VoiceClone.process_input api sf sfp url st0).2 ∧
    Covalent.allWaitsBlocking (VoiceClone.process_input api sf sfp url st0).2 = true ∧
    Covalent.retrievalsAfterDispatch [] (VoiceClone.process_input api sf sfp url st0).2 = true ∧
    Covalent.phasesMonotone (VoiceClone.process_input api sf sfp url st0).2 = true := by
  rcases process_input_actions_cases api sf sfp url st0 with h | h | h <;>
    simp [h, Covalent.retrievalKeys, Covalent.dispatchedIds, Covalent.allWaitsBlocking,
      Covalent.retrievalsAfterDispatch, Covalent.phasesMonotone, Covalent.monoB,
      Covalent.phase]

/-- Trace-level properties of the whole voice-clone script (configuration and
decoration cells followed by `process_input`). -/
theorem voiceclone_trace_props (api : VoiceClone.ExternalAPI)
    (sf sfp : Option String) (url : String) (st0 : VoiceClone.SessionState) :
    Covalent.retrievalKeys (VoiceClone.notebookTrace api sf sfp url st0) =
      Covalent.dispatchedIds (VoiceClone.notebookTrace api sf sfp url st0) ∧
    Covalent.allWaitsBlocking (VoiceClone.notebookTrace api sf sfp url st0) = true ∧
    Covalent.retrievalsAfterDispatch [] (VoiceClone.notebookTrace api sf sfp url st0) = true ∧
    Covalent.phasesMonotone (VoiceClone.notebookTrace api sf sfp url st0) = true := by
  rcases process_input_actions_cases api sf sfp url st0 with h | h | h <;>
    simp [VoiceClone.notebookTrace, h, Covalent.retrievalKeys, Covalent.dispatchedIds,
      Covalent.allWaitsBlocking, Covalent.retrievalsAfterDispatch,
      Covalent.phasesMonotone, Covalent.monoB, Covalent.phase]

/-!
Claim theorems.
-/

/-- C1 counterexample: the supplied files do contain original implementations
with checkable input-output behaviour.  `square` (defined as `x * x` in the
choosing-executors notebook) maps 3 to 9, the `workflow` lattice maps 2 to 4
(the notebook's recorded output), and the `training` loop of the PennyLane
notebook, run for 3 steps on concrete functions, returns a fully determined
triple computed by its own iteration — none of these results comes from an
external library call. -/
theorem C1_counterexample_original_behaviour :
    ChoosingExecutors.square 3 = 9 ∧
    ChoosingExecutors.workflow 2 = 4 ∧
    PennylaneHybrid.training (fun x : Nat => x + 1) (fun x : Nat => x * 10) 0 3
      = (3, [0, 1, 2], [10, 20, 30]) :=
  ⟨by decide, by decide, by decide⟩

/-- C1 amended: most notebook functions chain external library calls, but the
repository does define a few functions whose results are computed by
algorithms of its own, with checkable input-output behaviour: the
choosing-executors `workflow` computes `a * a` for every input, and the
PennyLane `training` loop records exactly the step indices `[0, ..., n-1]`. -/
theorem C1_amended_some_original_behaviour (a : Int) {P Q : Type}
    (f : P → P) (c : P → Q) (p : P) (n : Nat) :
    ChoosingExecutors.workflow a = a * a ∧
    (PennylaneHybrid.training f c p n).2.1 = List.range n :=
  ⟨rfl, training_steps_eq_range f c p n⟩

/-- C2 counterexample: `process_input` does mutate persistent session state —
with an uploaded speaker file, a non-empty URL and a truthy dispatch result it
leaves the session state changed — and `text_to_speech_voice_clone` sets the
process environment variable `COQUI_TOS_AGREED`, previously absent, to "1". -/
theorem C2_counterexample_state_mutation :
    (VoiceClone.process_input VoiceClone.apiOk (some "wav-bytes") (some "speaker.wav")
        "https://youtu.be/x" VoiceClone.emptySession).1 ≠ VoiceClone.emptySession ∧
    VoiceClone.text_to_speech_voice_clone_env (fun _ => none) "COQUI_TOS_AGREED" = some "1" ∧
    (fun _ => none : VoiceClone.Env) "COQUI_TOS_AGREED" = none :=
  ⟨by decide, rfl, rfl⟩

/-- C2 amended: the voice-clone notebook's functions do mutate global state:
on a truthy dispatch result, `process_input` overwrites the session-state keys
`transcription`, `summary` and `audio_file_content` with the components of the
retrieved result (and `text_to_speech_voice_clone` writes an environment
variable); the other notebooks define no state-mutating functions. -/
theorem C2_amended_session_writes (api : VoiceClone.ExternalAPI)
    (sf sfp : Option String) (url : String) (st0 : VoiceClone.SessionState)
    (r : String × String × String)
    (hsf : sf.isSome = true) (hurl : url ≠ "")
    (hres : api.getResult api.dispatchId = some r) :
    (VoiceClone.process_input api sf sfp url st0).1 =
      { transcription := some r.2.1,
        summary := some r.1,
        audio_file_content := some r.2.2 } := by
  have hu : (url == "") = false := by simpa using hurl
  unfold VoiceClone.process_input
  rw [if_pos (by simp [hsf, hu])]
  simp [hres]

/-- C2 witness: the amended claim at a concrete input. -/
theorem C2_amended_session_writes_witness :
    (VoiceClone.process_input VoiceClone.apiOk (some "wav-bytes") (some "speaker.wav") "u"
        VoiceClone.emptySession).1 =
      { transcription := some "trans",
        summary := some "sum",
        audio_file_content := some "audio" } :=
  C2_amended_session_writes VoiceClone.apiOk (some "wav-bytes") (some "speaker.wav") "u"
    VoiceClone.emptySession ("sum", "trans", "audio") rfl (by decide) rfl

/-- C3 counterexample: the supplied files do configure a retry and do branch
to an error-handling action based on an outcome: the voice-clone notebook's
`GCPBatchExecutor` is constructed with `retries=1`, and with a falsy retrieved
result `process_input` takes the `st.error` branch. -/
theorem C3_counterexample_retry_and_error_branch :
    VoiceClone.executor.retries = 1 ∧
    (VoiceClone.process_input VoiceClone.apiFail (some "wav-bytes") (some "speaker.wav") "u"
        VoiceClone.emptySession).2 =
      [Covalent.Event.dispatch "d-2", Covalent.Event.getResult "d-2" true,
       Covalent.Event.display "error"] :=
  ⟨rfl, by decide⟩

/-- C3 amended: failure states surface as the externally retrieved result or
status inspected after execution, and the files implement no recovery logic of
their own; however the voice-clone notebook does pass `retries=1` to its
executor configuration and `process_input` does branch to an error message
(leaving the session state unchanged) when the retrieved result is falsy. -/
theorem C3_amended_failure_surface (api : VoiceClone.ExternalAPI)
    (sf sfp : Option String) (url : String) (st0 : VoiceClone.SessionState)
    (hsf : sf.isSome = true) (hurl : url ≠ "")
    (hres : api.getResult api.dispatchId = none) :
    VoiceClone.process_input api sf sfp url st0 =
      (st0, [Covalent.Event.dispatch api.dispatchId,
             Covalent.Event.getResult api.dispatchId true,
             Covalent.Event.display "error"]) ∧
    VoiceClone.executor.retries = 1 := by
  refine ⟨?_, rfl⟩
  have hu : (url == "") = false := by simpa using hurl
  unfold VoiceClone.process_input
  rw [if_pos (by simp [hsf, hu])]
  simp [hres]

/-- C3 witness: the amended claim at a concrete input. -/
theorem C3_amended_failure_surface_witness :
    VoiceClone.process_input VoiceClone.apiFail (some "w") (some "p") "u"
        VoiceClone.emptySession =
      (VoiceClone.emptySession,
       [Covalent.Event.dispatch "d-2", Covalent.Event.getResult "d-2" true,
        Covalent.Event.display "error"]) ∧
    VoiceClone.executor.retries = 1 :=
  C3_amended_failure_surface VoiceClone.apiFail (some "w") (some "p") "u"
    VoiceClone.emptySession rfl (by decide) rfl

/-- C4: in every notebook the result-retrieval call is keyed by exactly the
identifier the dispatch call returned: in the three straight-line notebooks
the retrieval keys and the dispatched ids are both `[dId]` for whatever id
`dId` the external library returns, and in the voice-clone script (on every
path, for every external API behaviour) the retrieval keys coincide with the
dispatched ids. -/
theorem C4_retrieval_keyed_by_dispatch (dId : String) (api : VoiceClone.ExternalAPI)
    (sf sfp : Option String) (url : String) (st0 : VoiceClone.SessionState) :
    (Covalent.retrievalKeys (ChoosingExecutors.notebookTrace dId) = [dId] ∧
     Covalent.dispatchedIds (ChoosingExecutors.notebookTrace dId) = [dId]) ∧
    (Covalent.retrievalKeys (PennylaneHybrid.notebookTrace dId) = [dId] ∧
     Covalent.dispatchedIds (PennylaneHybrid.notebookTrace dId) = [dId]) ∧
    (Covalent.retrievalKeys (S3Transfers.notebookTrace dId) = [dId] ∧
     Covalent.dispatchedIds (S3Transfers.notebookTrace dId) = [dId]) ∧
    Covalent.retrievalKeys (VoiceClone.notebookTrace api sf sfp url st0) =
      Covalent.dispatchedIds (VoiceClone.notebookTrace api sf sfp url st0) :=
  ⟨⟨rfl, rfl⟩, ⟨rfl, rfl⟩, ⟨rfl, rfl⟩, (voiceclone_trace_props api sf sfp url st0).1⟩

/-- C5: every result-retrieval call in the supplied files passes `wait=True`:
in all four notebook traces, for every dispatch id and every external API
behaviour, every `getResult` event carries `wait = true`. -/
theorem C5_blocking_waits (dId : String) (api : VoiceClone.ExternalAPI)
    (sf sfp : Option String) (url : String) (st0 : VoiceClone.SessionState) :
    Covalent.allWaitsBlocking (ChoosingExecutors.notebookTrace dId) = true ∧
    Covalent.allWaitsBlocking (PennylaneHybrid.notebookTrace dId) = true ∧
    Covalent.allWaitsBlocking (S3Transfers.notebookTrace dId) = true ∧
    Covalent.allWaitsBlocking (VoiceClone.notebookTrace api sf sfp url st0) = true :=
  ⟨rfl, rfl, rfl, (voiceclone_trace_props api sf sfp url st0).2.1⟩

/-- C6: every notebook trace follows the configure → decorate → dispatch →
retrieve → display order (its phases are weakly increasing), and every
retrieval is keyed by an id dispatched earlier in the trace, so no result is
retrieved or displayed before the dispatch call that produced its
identifier. -/
theorem C6_pipeline_order (dId : String) (api : VoiceClone.ExternalAPI)
    (sf sfp : Option String) (url : String) (st0 : VoiceClone.SessionState) :
    (Covalent.phasesMonotone (ChoosingExecutors.notebookTrace dId) = true ∧
     Covalent.retrievalsAfterDispatch [] (ChoosingExecutors.notebookTrace dId) = true) ∧
    (Covalent.phasesMonotone (PennylaneHybrid.notebookTrace dId) = true ∧
     Covalent.retrievalsAfterDispatch [] (PennylaneHybrid.notebookTrace dId) = true) ∧
    (Covalent.phasesMonotone (S3Transfers.notebookTrace dId) = true ∧
     Covalent.retrievalsAfterDispatch [] (S3Transfers.notebookTrace dId) = true) ∧
    (Covalent.phasesMonotone (VoiceClone.notebookTrace api sf sfp url st0) = true ∧
     Covalent.retrievalsAfterDispatch [] (VoiceClone.notebookTrace api sf sfp url st0) = true) := by
  refine ⟨⟨rfl, ?_⟩, ⟨rfl, ?_⟩, ⟨rfl, ?_⟩,
    (voiceclone_trace_props api sf sfp url st0).2.2.2,
    (voiceclone_trace_props api sf sfp url st0).2.2.1⟩ <;>
  simp [ChoosingExecutors.notebookTrace, PennylaneHybrid.notebookTrace,
    S3Transfers.notebookTrace, Covalent.retrievalsAfterDispatch]

/-- C7: the voice-clone notebook calls `ct.electron`, `ct.dispatch` and
`ct.get_result` but no import statement in it binds `ct` (its markdown says
the import section loads Covalent, and the three other notebooks do bind `ct`
by `import covalent as ct`), so running the notebook raises a NameError at its
first use of `ct`. -/
theorem C7_missing_covalent_import :
    ChoosingExecutors.importedNames.contains "ct" = true ∧
    PennylaneHybrid.importedNames.contains "ct" = true ∧
    S3Transfers.importedNames.contains "ct" = true ∧
    VoiceClone.importedNames.contains "ct" = false ∧
    VoiceClone.usedNames.contains "ct" = true := by
  decide

/-- C8: the choosing-executors lattice computes `workflow a = square (identity
a) = a * a` for every input, and in particular `workflow 2 = 4`, matching the
notebook's recorded output. -/
theorem C8_workflow_squares (a : Int) :
    ChoosingExecutors.workflow a = ChoosingExecutors.square (ChoosingExecutors.identity a) ∧
    ChoosingExecutors.workflow a = a * a ∧
    ChoosingExecutors.workflow 2 = 4 :=
  ⟨rfl, rfl, by decide⟩

/-- C9: for every step count `n`, `training` returns a triple whose second
component is exactly `[0, 1, ..., n-1]` and whose third component has length
`n`; for `n = 0` it returns the initial parameters unchanged together with two
empty lists. -/
theorem C9_training_record {P Q : Type} (optStep : P → P) (costF : P → Q)
    (init_params : P) (n : Nat) :
    (PennylaneHybrid.training optStep costF init_params n).2.1 = List.range n ∧
    (PennylaneHybrid.training optStep costF init_params n).2.2.length = n ∧
    PennylaneHybrid.training optStep costF init_params 0 = (init_params, [], []) :=
  ⟨training_steps_eq_range optStep costF init_params n,
   training_costs_length optStep costF init_params n, rfl⟩

/-- C10: `upload_speaker_file` returns `(None, None)` when no file was
uploaded, and with a missing speaker file or an empty URL `process_input`
performs no external interaction at all and leaves the session state
unchanged. -/
theorem C10_guard_blocks_dispatch (api : VoiceClone.ExternalAPI)
    (sf sfp : Option String) (url : String) (st0 : VoiceClone.SessionState)
    (h : sf = none ∨ url = "") :
    VoiceClone.upload_speaker_file none = (none, none) ∧
    VoiceClone.process_input api sf sfp url st0 = (st0, []) := by
  refine ⟨rfl, ?_⟩
  unfold VoiceClone.process_input
  rcases h with h | h <;> simp [h]

/-- C10 witness: the claim at a concrete input with a missing speaker file. -/
theorem C10_guard_blocks_dispatch_witness :
    ((none : Option String) = none ∨ "https://youtu.be/x" = "") ∧
    (VoiceClone.upload_speaker_file none = (none, none) ∧
     VoiceClone.process_input VoiceClone.apiOk none (some "speaker.wav") "https://youtu.be/x"
       VoiceClone.emptySession = (VoiceClone.emptySession, [])) :=
  ⟨Or.inl rfl,
   C10_guard_blocks_dispatch VoiceClone.apiOk none (some "speaker.wav") "https://youtu.be/x"
     VoiceClone.emptySession (Or.inl rfl)⟩
